import Mathlib

/-!
Verification of the event-loop / bootstrap core of a palette editor
(file src/pt_pal_editor/src/main.c).  The development shallowly embeds:

* the mouse Coordinate Mapper (readMouseXY, lines 95-113),
* the scale-multiplier computation (setupVideo, lines 300-306),
* the quit negotiation (handleInput, lines 163-200, and
  showAskToSaveDialog, lines 115-147),
* the frame loop render/sleep phase (main, lines 69-86),
* the initialization-failure cascade and exit code (setupVideo and main).

Machine integers are modelled as Nat/Int with explicit reductions modulo
two to the word width where the C code performs unsigned arithmetic or
narrowing casts.  External calls (SDL, savePalette, the GUI handlers) are
recorded as trace events so ordering claims can be stated.
-/

/-- Narrowing conversion of a mathematical integer to a signed 16-bit value,
modelling the C cast (int16_t)x: reduce modulo 2^16 and re-center into
[-32768, 32767]. -/
def toInt16 (x : Int) : Int :=
  let r := x % 65536
  if r < 32768 then r else r - 65536

/-- The fixed-point scale step of readMouseXY, line 105:
((uint32_t)mx * scaleMul + (1 << 15)) >> 16 computed in uint32 arithmetic,
so the product and sum are reduced modulo 2^32 before the shift. -/
def scaleStep (u scaleMul : Nat) : Nat :=
  ((u * scaleMul + 32768) % 4294967296) >>> 16

/-- One axis of readMouseXY (lines 102-112): clamp a negative raw
coordinate to 0, convert to uint32, apply the fixed-point scale, clamp to
at most screenDim - 1, and narrow to int16 for the write into the pointer
state (input.mouse.x / input.mouse.y). -/
def scaleCoord (raw : Int) (scaleMul : Nat) (screenDim : Nat) : Int :=
  let m0 : Int := if raw < 0 then 0 else raw
  let u : Nat := m0.toNat % 4294967296
  let s : Nat := scaleStep u scaleMul
  let c : Int := if (s : Int) ≥ (screenDim : Nat) then (screenDim : Int) - 1 else (s : Int)
  toInt16 c

/-- The scale-multiplier computation of setupVideo, lines 302-306:
dScale = physical / logical in double precision, and the multiplier is
65536 when dScale is zero, otherwise round(65536 / dScale).  The double
arithmetic is modelled over the rationals; for the ratios the claims
instantiate (powers of two, and physical = logical) the double computation
is exact, so the rational model agrees with the C code. -/
def computeScaleMul (physical logical : Nat) : Nat :=
  let dScale : ℚ := (physical : ℚ) / (logical : ℚ)
  if dScale = 0 then 65536 else (round ((65536 : ℚ) / dScale)).toNat

lemma toInt16_of_small (x : Int) (h0 : 0 ≤ x) (h1 : x < 32768) : toInt16 x = x := by
  unfold toInt16
  have hx : x % 65536 = x := Int.emod_eq_of_lt h0 (by omega)
  simp only [hx]
  omega

lemma scaleStep_lt (u m : Nat) : scaleStep u m < 65536 := by
  unfold scaleStep
  have h : (u * m + 32768) % 4294967296 < 4294967296 := Nat.mod_lt _ (by norm_num)
  rw [Nat.shiftRight_eq_div_pow]
  omega

/-- C1: for every raw physical mouse coordinate, including negative ones,
the mapped logical coordinate written into the pointer state lies in
[0, screenDim - 1]: negatives are clamped to 0 before the fixed-point
scale, and after scaling the result is clamped to at most screenDim - 1.
The screen dimension is a positive compile-time constant no larger than
32768, so the final int16 narrowing is value-preserving. -/
theorem scaleCoord_in_range (raw : Int) (scaleMul screenDim : Nat)
    (hpos : 0 < screenDim) (hle : screenDim ≤ 32768) :
    0 ≤ scaleCoord raw scaleMul screenDim ∧
      scaleCoord raw scaleMul screenDim ≤ (screenDim : Int) - 1 := by
  unfold scaleCoord
  have hs := scaleStep_lt ((if raw < 0 then 0 else raw).toNat % 4294967296) scaleMul
  set s := scaleStep ((if raw < 0 then 0 else raw).toNat % 4294967296) scaleMul with hsdef
  by_cases hc : (s : Int) ≥ (screenDim : Nat)
  · simp only [hc, if_pos]
    rw [toInt16_of_small ((screenDim : Int) - 1) (by omega) (by omega)]
    omega
  · simp only [hc, if_neg, if_false]
    push_neg at hc
    rw [toInt16_of_small (s : Int) (by positivity) (by omega)]
    omega

theorem scaleCoord_in_range_witness :
    0 < 128 ∧ 128 ≤ 32768 ∧
      (0 ≤ scaleCoord (-5) 32768 128 ∧ scaleCoord (-5) 32768 128 ≤ (128 : Int) - 1) :=
  ⟨by decide, by decide, scaleCoord_in_range (-5) 32768 128 (by decide) (by decide)⟩

/-- C2 counterexample: the fixed-point scale step applied to raw
coordinate 255 with multiplier 32768 yields (255 * 32768 + 32768) >> 16 =
8388608 >> 16 = 128, not 127 as the claim states; 127 only appears after
the subsequent clamp to screenDim - 1. -/
theorem scaleStep_255_is_128_not_127 :
    scaleStep 255 32768 = 128 ∧ scaleStep 255 32768 ≠ 127 := by decide

/-- C2 amended: with logical width 128 and physical width 256 the scale
multiplier is round(65536 / 2) = 32768, the shift expression on raw x = 255
evaluates to 128, and the clamp to at most 127 makes the mapped logical
coordinate 127, so the last physical pixel column maps to the last logical
column. -/
theorem two_x_scale_maps_last_column :
    computeScaleMul 256 128 = 32768 ∧ scaleStep 255 32768 = 128 ∧
      scaleCoord 255 32768 128 = 127 := by
  refine ⟨?_, by decide, by decide⟩
  norm_num [computeScaleMul, round_eq]
  rfl

/-- C5: with a 1:1 window (physical dimension equal to the logical
dimension) the computed scale multiplier is 65536, and the full mapping
(multiply, add 32768, shift right 16, clamp, narrow to int16) returns
every in-range raw coordinate unchanged. -/
theorem one_to_one_scale_is_identity (d r : Nat)
    (hpos : 0 < d) (hle : d ≤ 32768) (hr : r < d) :
    computeScaleMul d d = 65536 ∧ scaleCoord (r : Int) 65536 d = (r : Int) := by
  constructor
  · have hd0 : (d : ℚ) ≠ 0 := Nat.cast_ne_zero.mpr hpos.ne'
    simp only [computeScaleMul, div_self hd0]
    norm_num [round_eq]
    rfl
  · unfold scaleCoord
    have hm0 : ¬((r : Int) < 0) := by omega
    simp only [hm0, if_false, Int.toNat_natCast]
    have hu : r % 4294967296 = r := Nat.mod_eq_of_lt (by omega)
    rw [hu]
    have hs : scaleStep r 65536 = r := by
      unfold scaleStep
      have hlt : r * 65536 + 32768 < 4294967296 := by omega
      rw [Nat.mod_eq_of_lt hlt, Nat.shiftRight_eq_div_pow]
      omega
    rw [hs]
    have hc : ¬((r : Int) ≥ (d : Nat)) := by exact_mod_cast Nat.not_le.mpr hr
    simp only [hc, if_false]
    exact toInt16_of_small (r : Int) (by omega) (by omega)

theorem one_to_one_scale_is_identity_witness :
    0 < 128 ∧ 128 ≤ 32768 ∧ 64 < 128 ∧
      (computeScaleMul 128 128 = 65536 ∧ scaleCoord (64 : Int) 65536 128 = (64 : Int)) :=
  ⟨by decide, by decide, by decide,
    one_to_one_scale_is_identity 128 64 (by decide) (by decide) (by decide)⟩

/-- The three global booleans of main.c that the quit negotiation touches:
programRunning (the Running Flag), allowSigterm (true means quit signals
are accepted; the quit-guard of the spec is its negation being active),
and configIsSaved (the external saved flag read at line 171). -/
structure AppFlags where
  programRunning : Bool
  allowSigterm : Bool
  configIsSaved : Bool
deriving DecidableEq

/-- Outcome of the SDL_ShowMessageBox call at line 136: either the box
fails to display (return value below zero), or it reports which button the
user pressed (1 = Yes, 0 = No in the button data of lines 119-123). -/
inductive ModalResult
  | displayError : ModalResult
  | button : Int → ModalResult

/-- Observable calls and flag writes, recorded in order so claims about
what happens before what can be stated. -/
inductive CallEv
  | modalCall : CallEv
  | saveCall : Int → CallEv
  | setSigterm : Bool → CallEv
  | setRunning : Bool → CallEv
  | keyDownCall : Int → CallEv
  | mouseUpCall : CallEv
  | mouseDownCall : CallEv
deriving DecidableEq

/-- showAskToSaveDialog, lines 115-147: show the message box once; if the
call fails, set allowSigterm back to true and stop the program without
saving; otherwise call savePalette(0) exactly when the Yes button (id 1)
was pressed, then stop the program.  savePalette is external and is
recorded as a trace event. -/
def showAskToSaveDialog : ModalResult → AppFlags → AppFlags × List CallEv
  | ModalResult.displayError, s =>
      ({ s with allowSigterm := true, programRunning := false },
        [CallEv.modalCall, CallEv.setSigterm true, CallEv.setRunning false])
  | ModalResult.button which, s =>
      if which = 1 then
        ({ s with programRunning := false },
          [CallEv.modalCall, CallEv.saveCall 0, CallEv.setRunning false])
      else
        ({ s with programRunning := false },
          [CallEv.modalCall, CallEv.setRunning false])

/-- The SDL events the dispatch loop of handleInput distinguishes
(lines 169-194); the mouse constructors carry the button number, with 1
standing for SDL_BUTTON_LEFT. -/
inductive InputEvent
  | quit : InputEvent
  | keyDown : Int → InputEvent
  | mouseBtnUp : Nat → InputEvent
  | mouseBtnDown : Nat → InputEvent

/-- Dispatch of one polled event in handleInput, lines 169-194.  A quit
event is handled only while allowSigterm is true; with unsaved state the
flag is first set false (line 173) and the dialog is invoked, otherwise
programRunning is set false directly.  Key and left-mouse-button events
are forwarded to external handlers, recorded as trace events.  The modal
outcome that SDL would deliver is passed in as a parameter. -/
def handleInputEvent (res : ModalResult) (ev : InputEvent) (s : AppFlags) :
    AppFlags × List CallEv :=
  match ev with
  | InputEvent.quit =>
      if s.allowSigterm then
        if !s.configIsSaved then
          let p := showAskToSaveDialog res { s with allowSigterm := false }
          (p.1, CallEv.setSigterm false :: p.2)
        else
          ({ s with programRunning := false }, [CallEv.setRunning false])
      else (s, [])
  | InputEvent.keyDown k => (s, [CallEv.keyDownCall k])
  | InputEvent.mouseBtnUp b =>
      if b = 1 then (s, [CallEv.mouseUpCall]) else (s, [])
  | InputEvent.mouseBtnDown b =>
      if b = 1 then (s, [CallEv.mouseDownCall]) else (s, [])

/-- C3: a quit signal arriving with unsaved state while quit signals are
still accepted produces exactly one modal call, preceded by the write
that arms the quit-guard (allowSigterm := false), so re-entrant quit
signals are ignored; a Yes answer calls savePalette(0) before
programRunning is cleared, and a No answer clears programRunning without
any save call. -/
theorem quit_unsaved_single_modal (s : AppFlags) (w : Int)
    (hGuard : s.allowSigterm = true) (hUnsaved : s.configIsSaved = false) :
    (handleInputEvent (ModalResult.button 1) InputEvent.quit s).2 =
        [CallEv.setSigterm false, CallEv.modalCall, CallEv.saveCall 0,
          CallEv.setRunning false] ∧
      (handleInputEvent (ModalResult.button 1) InputEvent.quit s).1.programRunning = false ∧
      (w ≠ 1 →
        (handleInputEvent (ModalResult.button w) InputEvent.quit s).2 =
            [CallEv.setSigterm false, CallEv.modalCall, CallEv.setRunning false] ∧
          (handleInputEvent (ModalResult.button w) InputEvent.quit s).1.programRunning
            = false) ∧
      (handleInputEvent (ModalResult.button w) InputEvent.quit s).2.count CallEv.modalCall
          = 1 ∧
      (∀ s2 : AppFlags, s2.allowSigterm = false →
        ∀ r : ModalResult, handleInputEvent r InputEvent.quit s2 = (s2, [])) := by
  refine ⟨?_, ?_, ?_, ?_, ?_⟩
  · simp [handleInputEvent, showAskToSaveDialog, hGuard, hUnsaved]
  · simp [handleInputEvent, showAskToSaveDialog, hGuard, hUnsaved]
  · intro hw
    constructor <;> simp [handleInputEvent, showAskToSaveDialog, hGuard, hUnsaved, hw]
  · by_cases hw : w = 1 <;>
      simp [handleInputEvent, showAskToSaveDialog, hGuard, hUnsaved, hw]
  · intro s2 h2 r
    simp [handleInputEvent, h2]

theorem quit_unsaved_single_modal_witness :
    (AppFlags.mk true true false).allowSigterm = true ∧
      (AppFlags.mk true true false).configIsSaved = false ∧
      ((handleInputEvent (ModalResult.button 1) InputEvent.quit
            (AppFlags.mk true true false)).2 =
          [CallEv.setSigterm false, CallEv.modalCall, CallEv.saveCall 0,
            CallEv.setRunning false] ∧
        (handleInputEvent (ModalResult.button 1) InputEvent.quit
            (AppFlags.mk true true false)).1.programRunning = false ∧
        ((0 : Int) ≠ 1 →
          (handleInputEvent (ModalResult.button 0) InputEvent.quit
              (AppFlags.mk true true false)).2 =
              [CallEv.setSigterm false, CallEv.modalCall, CallEv.setRunning false] ∧
            (handleInputEvent (ModalResult.button 0) InputEvent.quit
                (AppFlags.mk true true false)).1.programRunning = false) ∧
        (handleInputEvent (ModalResult.button 0) InputEvent.quit
            (AppFlags.mk true true false)).2.count CallEv.modalCall = 1 ∧
        (∀ s2 : AppFlags, s2.allowSigterm = false →
          ∀ r : ModalResult, handleInputEvent r InputEvent.quit s2 = (s2, []))) :=
  ⟨rfl, rfl, quit_unsaved_single_modal (AppFlags.mk true true false) 0 rfl rfl⟩

/-- C4: when the message box fails to display, the dialog routine sets
allowSigterm back to true (future quit attempts are accepted again) and
clears programRunning, and the trace contains no savePalette call: the
application stops rather than become unkillable. -/
theorem modal_failure_fail_open (s : AppFlags)
    (hGuard : s.allowSigterm = true) (hUnsaved : s.configIsSaved = false) :
    (handleInputEvent ModalResult.displayError InputEvent.quit s).1.allowSigterm = true ∧
      (handleInputEvent ModalResult.displayError InputEvent.quit s).1.programRunning
          = false ∧
      (handleInputEvent ModalResult.displayError InputEvent.quit s).2 =
        [CallEv.setSigterm false, CallEv.modalCall, CallEv.setSigterm true,
          CallEv.setRunning false] ∧
      (∀ a : Int, CallEv.saveCall a ∉
        (handleInputEvent ModalResult.displayError InputEvent.quit s).2) := by
  refine ⟨?_, ?_, ?_, ?_⟩ <;>
    simp [handleInputEvent, showAskToSaveDialog, hGuard, hUnsaved]

theorem modal_failure_fail_open_witness :
    (AppFlags.mk true true false).allowSigterm = true ∧
      (AppFlags.mk true true false).configIsSaved = false ∧
      ((handleInputEvent ModalResult.displayError InputEvent.quit
            (AppFlags.mk true true false)).1.allowSigterm = true ∧
        (handleInputEvent ModalResult.displayError InputEvent.quit
            (AppFlags.mk true true false)).1.programRunning = false ∧
        (handleInputEvent ModalResult.displayError InputEvent.quit
            (AppFlags.mk true true false)).2 =
          [CallEv.setSigterm false, CallEv.modalCall, CallEv.setSigterm true,
            CallEv.setRunning false] ∧
        (∀ a : Int, CallEv.saveCall a ∉
          (handleInputEvent ModalResult.displayError InputEvent.quit
            (AppFlags.mk true true false)).2)) :=
  ⟨rfl, rfl, modal_failure_fail_open (AppFlags.mk true true false) rfl rfl⟩

/-- C6: a quit signal dispatched while configIsSaved is true and quit
signals are accepted clears programRunning in that same dispatch, shows no
modal and performs no save, and leaves allowSigterm unchanged. -/
theorem quit_saved_stops_without_modal (s : AppFlags) (r : ModalResult)
    (hGuard : s.allowSigterm = true) (hSaved : s.configIsSaved = true) :
    (handleInputEvent r InputEvent.quit s).1.programRunning = false ∧
      (handleInputEvent r InputEvent.quit s).1.allowSigterm = s.allowSigterm ∧
      (handleInputEvent r InputEvent.quit s).2 = [CallEv.setRunning false] ∧
      CallEv.modalCall ∉ (handleInputEvent r InputEvent.quit s).2 := by
  refine ⟨?_, ?_, ?_, ?_⟩ <;> simp [handleInputEvent, hGuard, hSaved]

theorem quit_saved_stops_without_modal_witness :
    (AppFlags.mk true true true).allowSigterm = true ∧
      (AppFlags.mk true true true).configIsSaved = true ∧
      ((handleInputEvent (ModalResult.button 0) InputEvent.quit
            (AppFlags.mk true true true)).1.programRunning = false ∧
        (handleInputEvent (ModalResult.button 0) InputEvent.quit
            (AppFlags.mk true true true)).1.allowSigterm
          = (AppFlags.mk true true true).allowSigterm ∧
        (handleInputEvent (ModalResult.button 0) InputEvent.quit
            (AppFlags.mk true true true)).2 = [CallEv.setRunning false] ∧
        CallEv.modalCall ∉ (handleInputEvent (ModalResult.button 0) InputEvent.quit
            (AppFlags.mk true true true)).2) :=
  ⟨rfl, rfl,
    quit_saved_stops_without_modal (AppFlags.mk true true true)
      (ModalResult.button 0) rfl rfl⟩

/-- C10: when the message box displays successfully, allowSigterm is left
untouched by the dialog routine (so it stays false, as handleInput set it,
for either answer); only the display-failure path sets it back to true;
and every path out of the dialog routine clears programRunning, so the
program never keeps running with quit signals still suppressed. -/
theorem dialog_guard_and_running_exit (s : AppFlags) (w : Int)
    (hGuard : s.allowSigterm = false) :
    (showAskToSaveDialog (ModalResult.button w) s).1.allowSigterm = false ∧
      (showAskToSaveDialog ModalResult.displayError s).1.allowSigterm = true ∧
      (∀ r : ModalResult, (showAskToSaveDialog r s).1.programRunning = false) := by
  refine ⟨?_, ?_, ?_⟩
  · by_cases hw : w = 1 <;> simp [showAskToSaveDialog, hw, hGuard]
  · simp [showAskToSaveDialog]
  · intro r
    cases r with
    | displayError => simp [showAskToSaveDialog]
    | button b => by_cases hb : b = 1 <;> simp [showAskToSaveDialog, hb]

theorem dialog_guard_and_running_exit_witness :
    (AppFlags.mk true false false).allowSigterm = false ∧
      ((showAskToSaveDialog (ModalResult.button 1)
            (AppFlags.mk true false false)).1.allowSigterm = false ∧
        (showAskToSaveDialog ModalResult.displayError
            (AppFlags.mk true false false)).1.allowSigterm = true ∧
        (∀ r : ModalResult, (showAskToSaveDialog r
            (AppFlags.mk true false false)).1.programRunning = false)) :=
  ⟨rfl, dialog_guard_and_running_exit (AppFlags.mk true false false) 1 rfl⟩

/-- Render and delay calls made by one frame-loop iteration
(main, lines 74-85). -/
inductive LoopEv
  | updateTexture : LoopEv
  | renderClear : LoopEv
  | renderCopy : LoopEv
  | renderPresent : LoopEv
  | sleep : Nat → LoopEv
deriving DecidableEq

/-- The SDL_Delay argument at line 85: (1000 / 60) + 1 in C integer
arithmetic, that is 17 milliseconds. -/
def frameSleepMs : Nat := 1000 / 60 + 1

/-- The tail of one frame-loop iteration (main, lines 74-85), given the
value of redrawScreen after readMouseXY and handleInput ran: when the flag
is set it is cleared and the four render calls run, otherwise they are all
skipped; either way the iteration ends with the fixed delay.  Returns the
new redrawScreen value and the trace. -/
def frameLoopRenderPhase (redrawScreen : Bool) : Bool × List LoopEv :=
  if redrawScreen then
    (false, [LoopEv.updateTexture, LoopEv.renderClear, LoopEv.renderCopy,
      LoopEv.renderPresent, LoopEv.sleep frameSleepMs])
  else
    (redrawScreen, [LoopEv.sleep frameSleepMs])

/-- C7: each frame-loop iteration performs the texture upload and present
calls exactly when redrawScreen is true (the trace is the four render
calls plus the sleep, and just the sleep otherwise), the delay is
floor(1000 / 60) + 1 = 17 milliseconds on every iteration, and 17 ms is
not less than 1000 / 60 ms. -/
theorem frame_loop_render_gated_min_sleep :
    (∀ b : Bool, (frameLoopRenderPhase b).2 =
      if b then
        [LoopEv.updateTexture, LoopEv.renderClear, LoopEv.renderCopy,
          LoopEv.renderPresent, LoopEv.sleep frameSleepMs]
      else [LoopEv.sleep frameSleepMs]) ∧
    frameSleepMs = 17 ∧ (1000 : ℚ) / 60 ≤ (frameSleepMs : ℚ) := by
  refine ⟨fun b => ?_, rfl, by norm_num [frameSleepMs]⟩
  cases b <;> rfl

/-- Success flags for each fallible step of setupVideo (lines 238-309) and
the window size reported by SDL_GetWindowSize at line 300. -/
structure VideoEnv where
  sdlInitOk : Bool
  windowOk : Bool
  rendererOk : Bool
  textureOk : Bool
  allocOk : Bool
  winW : Nat
  winH : Nat
deriving DecidableEq

/-- Error-dialog and shutdown calls visible from main and setupVideo. -/
inductive MainEv
  | errorDialog : MainEv
  | sdlQuitCall : MainEv
  | loopRun : MainEv
  | freeBuffers : MainEv
deriving DecidableEq

/-- setupVideo, lines 238-309: each failing step (SDL_Init, window,
renderer, texture, frame-buffer malloc) shows an error message box and
returns false; on success the two mouse scale multipliers are computed
from the reported window size and the logical dimensions.  Returns the
multipliers on success together with the trace of error dialogs. -/
def setupVideo (screenW screenH : Nat) (env : VideoEnv) :
    Option (Nat × Nat) × List MainEv :=
  if !env.sdlInitOk then (none, [MainEv.errorDialog])
  else if !env.windowOk then (none, [MainEv.errorDialog])
  else if !env.rendererOk then (none, [MainEv.errorDialog])
  else if !env.textureOk then (none, [MainEv.errorDialog])
  else if !env.allocOk then (none, [MainEv.errorDialog])
  else
    (some (computeScaleMul env.winW screenW, computeScaleMul env.winH screenH), [])

/-- The flag state at the entry of the frame loop (main, lines 59-69):
none when setupVideo failed (main returns right away), otherwise the state
after line 66 set redrawScreen to true and line 68 set programRunning to
true, just before the first iteration. -/
structure LoopEntry where
  programRunning : Bool
  redrawScreen : Bool
deriving DecidableEq

/-- Loop-entry state computed by main from the setupVideo outcome. -/
def mainLoopEntry (screenW screenH : Nat) (env : VideoEnv) : Option LoopEntry :=
  match (setupVideo screenW screenH env).1 with
  | none => none
  | some _ => some { programRunning := true, redrawScreen := true }

/-- Exit code and call trace of main (lines 45-93): on a setupVideo
failure, SDL_Quit is called and 0 is returned; otherwise the frame loop
runs and, once it terminates, the buffers are freed, SDL_Quit is called
and 0 is returned. -/
def mainRun (screenW screenH : Nat) (env : VideoEnv) : Int × List MainEv :=
  match setupVideo screenW screenH env with
  | (none, evs) => (0, evs ++ [MainEv.sdlQuitCall])
  | (some _, evs) =>
      (0, evs ++ [MainEv.loopRun, MainEv.freeBuffers, MainEv.sdlQuitCall])

/-- C8: whenever startup succeeds and main reaches the frame loop, the
redrawScreen flag is true at loop entry, so the first iteration presents a
frame; since the GUI handlers can only set the flag (modelled by an
arbitrary extra Bool combined with or), the present call of the first
iteration happens exactly once regardless of what they did. -/
theorem redraw_true_at_loop_entry (screenW screenH : Nat) (env : VideoEnv)
    (st : LoopEntry) (h : mainLoopEntry screenW screenH env = some st) :
    st.redrawScreen = true ∧
      (∀ hset : Bool,
        (frameLoopRenderPhase (hset || st.redrawScreen)).2.count LoopEv.renderPresent
          = 1) := by
  have hst : st = { programRunning := true, redrawScreen := true } := by
    unfold mainLoopEntry at h
    cases hv : (setupVideo screenW screenH env).1 with
    | none => rw [hv] at h; exact absurd h (by simp)
    | some p => rw [hv] at h; simpa using h.symm
  subst hst
  refine ⟨rfl, fun hset => ?_⟩
  cases hset <;> rfl

theorem redraw_true_at_loop_entry_witness :
    mainLoopEntry 128 64 (VideoEnv.mk true true true true true 256 128)
        = some (LoopEntry.mk true true) ∧
      ((LoopEntry.mk true true).redrawScreen = true ∧
        (∀ hset : Bool,
          (frameLoopRenderPhase
              (hset || (LoopEntry.mk true true).redrawScreen)).2.count
            LoopEv.renderPresent = 1)) :=
  ⟨rfl, redraw_true_at_loop_entry 128 64
    (VideoEnv.mk true true true true true 256 128) (LoopEntry.mk true true) rfl⟩

/-- C9: the value main returns is 0 for every environment, on the normal
path and on every initialization-failure path alike, and whenever
setupVideo fails an error dialog appears in the trace before the process
winds down. -/
theorem exit_code_always_zero (screenW screenH : Nat) (env : VideoEnv) :
    (mainRun screenW screenH env).1 = 0 ∧
      ((setupVideo screenW screenH env).1 = none →
        MainEv.errorDialog ∈ (mainRun screenW screenH env).2) := by
  unfold mainRun setupVideo
  by_cases h1 : env.sdlInitOk <;> by_cases h2 : env.windowOk <;>
    by_cases h3 : env.rendererOk <;> by_cases h4 : env.textureOk <;>
    by_cases h5 : env.allocOk <;> simp [h1, h2, h3, h4, h5]

theorem exit_code_always_zero_witness :
    (setupVideo 128 64 (VideoEnv.mk false true true true true 0 0)).1 = none ∧
      ((mainRun 128 64 (VideoEnv.mk false true true true true 0 0)).1 = 0 ∧
        MainEv.errorDialog ∈
          (mainRun 128 64 (VideoEnv.mk false true true true true 0 0)).2) :=
  ⟨rfl,
    (exit_code_always_zero 128 64 (VideoEnv.mk false true true true true 0 0)).1,
    (exit_code_always_zero 128 64 (VideoEnv.mk false true true true true 0 0)).2 rfl⟩
